import Mathlib

/-!
Verification of the convex-shape / support-mapping layer of the
reactphysics3d repository (ConeShape.h, SphereShape.cpp).

The C++ `decimal` scalar is modelled as an exact field: `ℚ` for the purely
arithmetic operations (inertia tensor, local bounds, equality, the sphere
constructor) so that concrete instances evaluate by `decide`, and `ℝ` for the
support-mapping functions, whose formulas involve square roots.

Definitions are transcribed from the source files under `src/`.  The bodies of
`ConeShape::getLocalSupportPointWithMargin`, `ConeShape::getLocalSupportPointWithoutMargin`
(in ConeShape.cpp) and of the `SphereShape` support functions (SphereShape.h)
are not among the provided sources; those are modelled from the specification
and each carries a doc comment saying so.
-/

namespace RP3D

/-- The sphere collision shape: `mRadius` from SphereShape, plus the base-class
`CollisionShape` margin `mMargin`.  (SphereShape.cpp line 34 passes `radius` as
the base-class margin argument.) -/
structure SphereShape where
  mRadius : ℚ
  mMargin : ℚ
deriving DecidableEq

/-- The cone collision shape data: base radius, half height and the base-class
margin (ConeShape.h lines 57-64; the cached `mSinTheta` is derived state and is
handled on the `ℝ` side where the support mapping lives). -/
structure ConeShape where
  mRadius : ℚ
  mHalfHeight : ℚ
  mMargin : ℚ
deriving DecidableEq

/-- A 3-component vector of exact scalars, used for the local-bounds
computation (`Vector3` with `decimal` components). -/
structure Vec3Q where
  x : ℚ
  y : ℚ
  z : ℚ
deriving DecidableEq

/-- A 3x3 matrix of exact scalars (`Matrix3x3`), fields in the row-major order
of `Matrix3x3::setAllValues(a1, a2, a3, b1, b2, b3, c1, c2, c3)`. -/
structure Matrix3x3 where
  a1 : ℚ
  a2 : ℚ
  a3 : ℚ
  b1 : ℚ
  b2 : ℚ
  b3 : ℚ
  c1 : ℚ
  c2 : ℚ
  c3 : ℚ
deriving DecidableEq

/-- Source `Matrix3x3::setAllValues`: build the matrix from its nine entries in
row-major order. -/
def Matrix3x3.setAllValues (a1 a2 a3 b1 b2 b3 c1 c2 c3 : ℚ) : Matrix3x3 :=
  ⟨a1, a2, a3, b1, b2, b3, c1, c2, c3⟩

/-- Entrywise scalar multiple of a `Matrix3x3` (used to state mass-linearity of
the inertia tensor). -/
def Matrix3x3.smulMat (c : ℚ) (t : Matrix3x3) : Matrix3x3 :=
  ⟨c * t.a1, c * t.a2, c * t.a3, c * t.b1, c * t.b2, c * t.b3,
   c * t.c1, c * t.c2, c * t.c3⟩

/-- Source `ConeShape::computeLocalInertiaTensor` (ConeShape.h lines 200-206),
transcribed verbatim: note that the source computes
`decimal(0.15) * mass * (rSquare + mHalfHeight)` with `mHalfHeight` NOT
squared.  The out-parameter is modelled as a returned matrix. -/
def ConeShape.computeLocalInertiaTensor (s : ConeShape) (mass : ℚ) : Matrix3x3 :=
  let rSquare : ℚ := s.mRadius * s.mRadius
  let diagXZ : ℚ := (15 / 100) * mass * (rSquare + s.mHalfHeight)
  Matrix3x3.setAllValues diagXZ 0 0
                         0 ((3 / 10) * mass * rSquare)
                         0 0 0 diagXZ

/-- Source `ConeShape::getLocalBounds` (ConeShape.h lines 186-197): the two
out-parameters are modelled as a returned pair `(min, max)`.  The source sets
`max.z = max.x` and `min.z = min.x`. -/
def ConeShape.getLocalBounds (s : ConeShape) : Vec3Q × Vec3Q :=
  let maxx : ℚ := s.mRadius + s.mMargin
  let maxy : ℚ := s.mHalfHeight + s.mMargin
  let maxv : Vec3Q := ⟨maxx, maxy, maxx⟩
  let minv : Vec3Q := ⟨-maxv.x, -maxv.y, -maxv.x⟩
  (minv, maxv)

/-- The possible concrete dynamic types of a `CollisionShape&` argument among
the shapes visible in the sources. -/
inductive CollisionShapeVal where
  | sphereShape (s : SphereShape)
  | coneShape (c : ConeShape)
deriving DecidableEq

/-- Semantics of the C++ reference cast `dynamic_cast<const ConeShape&>` used
in `ConeShape::isEqualTo` (ConeShape.h line 210): it yields the cone data when
the dynamic type is `ConeShape` and throws `std::bad_cast` otherwise, modelled
as `Except Unit`. -/
def dynamicCastConeShape : CollisionShapeVal → Except Unit ConeShape
  | .coneShape c => .ok c
  | .sphereShape _ => .error ()

/-- Source `ConeShape::isEqualTo` (ConeShape.h lines 209-212): an unchecked reference
downcast followed by exact comparison of `mRadius` and `mHalfHeight` (the
margin is not compared).  A thrown `std::bad_cast` propagates as `.error ()`. -/
def ConeShape.isEqualTo (self : ConeShape) (other : CollisionShapeVal) :
    Except Unit Bool :=
  (dynamicCastConeShape other).map fun o =>
    decide (self.mRadius = o.mRadius) && decide (self.mHalfHeight = o.mHalfHeight)

/-- Source `SphereShape::SphereShape` (SphereShape.cpp lines 34-36): the constructor
takes the radius as its only parameter, passes it to the base class as the
margin (`CollisionShape(SPHERE, radius)`), stores it in `mRadius`, and asserts
`radius > 0`.  The assertion failure is modelled as `none`. -/
def SphereShape.construct (radius : ℚ) : Option SphereShape :=
  if 0 < radius then some ⟨radius, radius⟩ else none

/-- A 3-component vector of real scalars (`Vector3`), used for the support
mapping, where the formulas take square roots. -/
structure Vector3 where
  x : ℝ
  y : ℝ
  z : ℝ

/-- Source `Vector3::length`: the Euclidean length `sqrt(x*x + y*y + z*z)`. -/
noncomputable def Vector3.length (v : Vector3) : ℝ :=
  Real.sqrt (v.x * v.x + v.y * v.y + v.z * v.z)

/-- Componentwise vector addition. -/
def Vector3.add (u v : Vector3) : Vector3 :=
  ⟨u.x + v.x, u.y + v.y, u.z + v.z⟩

/-- Scalar times vector. -/
def Vector3.scale (c : ℝ) (v : Vector3) : Vector3 :=
  ⟨c * v.x, c * v.y, c * v.z⟩

/-- Source `Vector3::getUnit`: the normalization `v / |v|` of a vector. -/
noncomputable def Vector3.getUnit (v : Vector3) : Vector3 :=
  Vector3.scale (1 / v.length) v

/-- Real-valued cone shape data, the frame for the support-mapping functions:
radius, half height, margin as in `ConeShape`, together with the derived
`mSinTheta`, cached at construction as `radius / sqrt(radius² + height²)` with
`height = 2 * halfHeight` (spec §3, ConeShape.h line 63). -/
structure ConeShapeR where
  mRadius : ℝ
  mHalfHeight : ℝ
  mMargin : ℝ

/-- The cached sine of the half apex angle, `radius / sqrt(radius² + height²)`
with `height = 2 * halfHeight`. -/
noncomputable def ConeShapeR.mSinTheta (s : ConeShapeR) : ℝ :=
  s.mRadius /
    Real.sqrt (s.mRadius * s.mRadius + (2 * s.mHalfHeight) * (2 * s.mHalfHeight))

/-- Source `CollisionShape::getMargin` for the real-valued cone data. -/
def ConeShapeR.getMargin (s : ConeShapeR) : ℝ := s.mMargin

/-- Modelled from the spec: `ConeShape::getLocalSupportPointWithoutMargin`.
Its body lives in ConeShape.cpp, which is not among the provided sources; this
follows spec §4.3 word for word: apex `(0, halfHeight, 0)` when the projection
test `dy / |d| > sinθ` holds, guarding the degenerate `|d| = 0` case by
returning the apex; otherwise the base-rim point
`(radius * dx/|planar|, -halfHeight, radius * dz/|planar|)` when the planar
component `(dx, dz)` is non-zero; otherwise the base center
`(0, -halfHeight, 0)`. -/
noncomputable def ConeShapeR.getLocalSupportPointWithoutMargin
    (s : ConeShapeR) (d : Vector3) : Vector3 :=
  if d.length = 0 then ⟨0, s.mHalfHeight, 0⟩
  else if s.mSinTheta < d.y / d.length then ⟨0, s.mHalfHeight, 0⟩
  else
    let lenPlanar : ℝ := Real.sqrt (d.x * d.x + d.z * d.z)
    if lenPlanar ≠ 0 then
      ⟨s.mRadius * d.x / lenPlanar, -s.mHalfHeight, s.mRadius * d.z / lenPlanar⟩
    else ⟨0, -s.mHalfHeight, 0⟩

/-- Modelled from the spec: `ConeShape::getLocalSupportPointWithMargin` (body
in ConeShape.cpp, not among the provided sources).  Spec §4.1: the with-margin
support point is the without-margin support point plus
`margin * normalize(direction)`, with the margin term defined as the zero
vector when the direction is the zero vector. -/
noncomputable def ConeShapeR.getLocalSupportPointWithMargin
    (s : ConeShapeR) (d : Vector3) : Vector3 :=
  let supportPoint := s.getLocalSupportPointWithoutMargin d
  if d.length = 0 then supportPoint
  else Vector3.add supportPoint (Vector3.scale s.mMargin d.getUnit)

/-- Modelled from the spec: `SphereShape::getLocalSupportPointWithoutMargin`
(body in SphereShape.h, not among the provided sources).  Spec §4.2: the
sphere's without-margin support point is the coordinate origin for every
direction. -/
def sphereLocalSupportPointWithoutMargin (radius : ℝ) (d : Vector3) : Vector3 :=
  ⟨0, 0, 0⟩

/-- Modelled from the spec: `SphereShape::getLocalSupportPointWithMargin`
(body in SphereShape.h, not among the provided sources).  Spec §4.2:
`radius * normalize(d)`, with the §4.1 zero-direction guard making the margin
term the zero vector. -/
noncomputable def sphereLocalSupportPointWithMargin (radius : ℝ) (d : Vector3) :
    Vector3 :=
  let supportPoint := sphereLocalSupportPointWithoutMargin radius d
  if d.length = 0 then supportPoint
  else Vector3.add supportPoint (Vector3.scale radius d.getUnit)

/-- A world transform as stored by a proxy shape: a position and a quaternion
orientation.  Its contents are irrelevant to the delegation claims. -/
structure Transform where
  position : Vector3
  qx : ℝ
  qy : ℝ
  qz : ℝ
  qw : ℝ

/-- Source `ProxyConeShape` (ConeShape.h lines 120-163): pointer to the actual
collision shape, plus the `ProxyShape` base-class state (transform and mass;
the body back-pointer is irrelevant here). -/
structure ProxyConeShape where
  mCollisionShape : ConeShapeR
  mTransform : Transform
  mMass : ℝ

/-- Source `ProxyConeShape::getLocalSupportPointWithMargin` (ConeShape.h lines
232-234): pure delegation to the wrapped shape. -/
noncomputable def ProxyConeShape.getLocalSupportPointWithMargin
    (p : ProxyConeShape) (d : Vector3) : Vector3 :=
  p.mCollisionShape.getLocalSupportPointWithMargin d

/-- Source `ProxyConeShape::getLocalSupportPointWithoutMargin` (ConeShape.h lines
237-239): pure delegation to the wrapped shape. -/
noncomputable def ProxyConeShape.getLocalSupportPointWithoutMargin
    (p : ProxyConeShape) (d : Vector3) : Vector3 :=
  p.mCollisionShape.getLocalSupportPointWithoutMargin d

/-- Source `ProxyConeShape::getMargin` (ConeShape.h lines 242-244): delegation to the
wrapped shape's margin. -/
def ProxyConeShape.getMargin (p : ProxyConeShape) : ℝ :=
  p.mCollisionShape.getMargin

/-- C2: the source computes the x/z inertia diagonal as
`0.15 * mass * (radius² + halfHeight)` with `mHalfHeight` NOT squared
(ConeShape.h line 202), so for radius 1, halfHeight 2, mass 1 the entry is
`0.45`, while the claimed formula `0.15 * mass * (radius² + halfHeight²)`
gives `0.75`.  The y diagonal `0.3 * mass * radius²` does match the claim. -/
theorem C2_inertia_code_vs_claim :
    (ConeShape.computeLocalInertiaTensor ⟨1, 2, 4 / 100⟩ 1).a1 = 45 / 100 ∧
    (ConeShape.computeLocalInertiaTensor ⟨1, 2, 4 / 100⟩ 1).b2 = 3 / 10 ∧
    (45 : ℚ) / 100 ≠ (15 / 100) * 1 * (1 * 1 + 2 * 2) := by
  refine ⟨?_, ?_, ?_⟩
  · show (15 : ℚ) / 100 * 1 * (1 * 1 + 2) = 45 / 100
    norm_num
  · show (3 : ℚ) / 10 * 1 * (1 * 1) = 3 / 10
    norm_num
  · norm_num

/-- C3 counterexample: `ConeShape::isEqualTo` applied to a `SphereShape`
argument performs an unchecked reference `dynamic_cast` (ConeShape.h line 210)
which throws `std::bad_cast` — modelled as `Except.error ()` — rather than
returning `false`. -/
theorem C3_isEqualTo_throws_on_sphere :
    ConeShape.isEqualTo ⟨1, 2, 1⟩ (.sphereShape ⟨3, 3⟩) = Except.error () ∧
    ConeShape.isEqualTo ⟨1, 2, 1⟩ (.sphereShape ⟨3, 3⟩) ≠ Except.ok false := by
  refine ⟨rfl, by simp [ConeShape.isEqualTo, dynamicCastConeShape, Except.map]⟩

/-- C3 amended: when the argument's dynamic type is `ConeShape`,
`ConeShape::isEqualTo` returns the exact comparison of radius and half height;
when the argument is a differently-kinded shape, the reference `dynamic_cast`
throws `std::bad_cast` instead of returning `false`, so the contract relies on
an external kind check before the call. -/
theorem C3_isEqualTo_cast_semantics (self other : ConeShape) (sph : SphereShape) :
    ConeShape.isEqualTo self (.coneShape other) =
      Except.ok (decide (self.mRadius = other.mRadius) &&
                 decide (self.mHalfHeight = other.mHalfHeight)) ∧
    ConeShape.isEqualTo self (.sphereShape sph) = Except.error () :=
  ⟨rfl, rfl⟩

/-- C5: `getLocalBounds` yields `max = (r+m, h+m, r+m)` and `min = -max`
componentwise, and the extent `max - min` grows monotonically with the
margin. -/
theorem C5_getLocalBounds (r h m₁ m₂ : ℚ) (hm : m₁ ≤ m₂) :
    ConeShape.getLocalBounds ⟨r, h, m₁⟩ =
      (⟨-(r + m₁), -(h + m₁), -(r + m₁)⟩, ⟨r + m₁, h + m₁, r + m₁⟩) ∧
    (ConeShape.getLocalBounds ⟨r, h, m₁⟩).1.x =
      -(ConeShape.getLocalBounds ⟨r, h, m₁⟩).2.x ∧
    (ConeShape.getLocalBounds ⟨r, h, m₁⟩).1.y =
      -(ConeShape.getLocalBounds ⟨r, h, m₁⟩).2.y ∧
    (ConeShape.getLocalBounds ⟨r, h, m₁⟩).1.z =
      -(ConeShape.getLocalBounds ⟨r, h, m₁⟩).2.z ∧
    (ConeShape.getLocalBounds ⟨r, h, m₁⟩).2.x -
        (ConeShape.getLocalBounds ⟨r, h, m₁⟩).1.x ≤
      (ConeShape.getLocalBounds ⟨r, h, m₂⟩).2.x -
        (ConeShape.getLocalBounds ⟨r, h, m₂⟩).1.x ∧
    (ConeShape.getLocalBounds ⟨r, h, m₁⟩).2.y -
        (ConeShape.getLocalBounds ⟨r, h, m₁⟩).1.y ≤
      (ConeShape.getLocalBounds ⟨r, h, m₂⟩).2.y -
        (ConeShape.getLocalBounds ⟨r, h, m₂⟩).1.y ∧
    (ConeShape.getLocalBounds ⟨r, h, m₁⟩).2.z -
        (ConeShape.getLocalBounds ⟨r, h, m₁⟩).1.z ≤
      (ConeShape.getLocalBounds ⟨r, h, m₂⟩).2.z -
        (ConeShape.getLocalBounds ⟨r, h, m₂⟩).1.z := by
  refine ⟨rfl, rfl, rfl, rfl, ?_, ?_, ?_⟩
  · show (r + m₁) - -(r + m₁) ≤ (r + m₂) - -(r + m₂)
    linarith
  · show (h + m₁) - -(h + m₁) ≤ (h + m₂) - -(h + m₂)
    linarith
  · show (r + m₁) - -(r + m₁) ≤ (r + m₂) - -(r + m₂)
    linarith

/-- C5 witness: a cone of radius `3` and half height `2`, margin `1` compared
against margin `2`. -/
theorem C5_getLocalBounds_witness :
    ((1 : ℚ) ≤ 2) ∧
    (ConeShape.getLocalBounds ⟨3, 2, 1⟩ =
      (⟨-(3 + 1), -(2 + 1), -(3 + 1)⟩, ⟨3 + 1, 2 + 1, 3 + 1⟩) ∧
    (ConeShape.getLocalBounds ⟨3, 2, 1⟩).1.x =
      -(ConeShape.getLocalBounds ⟨3, 2, 1⟩).2.x ∧
    (ConeShape.getLocalBounds ⟨3, 2, 1⟩).1.y =
      -(ConeShape.getLocalBounds ⟨3, 2, 1⟩).2.y ∧
    (ConeShape.getLocalBounds ⟨3, 2, 1⟩).1.z =
      -(ConeShape.getLocalBounds ⟨3, 2, 1⟩).2.z ∧
    (ConeShape.getLocalBounds ⟨3, 2, 1⟩).2.x -
        (ConeShape.getLocalBounds ⟨3, 2, 1⟩).1.x ≤
      (ConeShape.getLocalBounds ⟨3, 2, 2⟩).2.x -
        (ConeShape.getLocalBounds ⟨3, 2, 2⟩).1.x ∧
    (ConeShape.getLocalBounds ⟨3, 2, 1⟩).2.y -
        (ConeShape.getLocalBounds ⟨3, 2, 1⟩).1.y ≤
      (ConeShape.getLocalBounds ⟨3, 2, 2⟩).2.y -
        (ConeShape.getLocalBounds ⟨3, 2, 2⟩).1.y ∧
    (ConeShape.getLocalBounds ⟨3, 2, 1⟩).2.z -
        (ConeShape.getLocalBounds ⟨3, 2, 1⟩).1.z ≤
      (ConeShape.getLocalBounds ⟨3, 2, 2⟩).2.z -
        (ConeShape.getLocalBounds ⟨3, 2, 2⟩).1.z) :=
  ⟨by decide, C5_getLocalBounds 3 2 1 2 (by decide)⟩

/-- C6: on cone arguments `isEqualTo` returns `true` exactly when radius and
half height match; it is reflexive, symmetric, and the margins of both shapes
play no role in the result. -/
theorem C6_isEqualTo_cone_iff (c₁ c₂ : ConeShape) :
    (ConeShape.isEqualTo c₁ (.coneShape c₂) = Except.ok true ↔
      (c₁.mRadius = c₂.mRadius ∧ c₁.mHalfHeight = c₂.mHalfHeight)) ∧
    ConeShape.isEqualTo c₁ (.coneShape c₁) = Except.ok true ∧
    ConeShape.isEqualTo c₁ (.coneShape c₂) =
      ConeShape.isEqualTo c₂ (.coneShape c₁) ∧
    (∀ m₁ m₂ : ℚ,
      ConeShape.isEqualTo ⟨c₁.mRadius, c₁.mHalfHeight, m₁⟩
          (.coneShape ⟨c₂.mRadius, c₂.mHalfHeight, m₂⟩) =
        ConeShape.isEqualTo c₁ (.coneShape c₂)) := by
  refine ⟨?_, ?_, ?_, ?_⟩
  · simp [ConeShape.isEqualTo, dynamicCastConeShape, Except.map]
  · simp [ConeShape.isEqualTo, dynamicCastConeShape, Except.map]
  · have h1 : decide (c₁.mRadius = c₂.mRadius) =
        decide (c₂.mRadius = c₁.mRadius) := decide_eq_decide.mpr eq_comm
    have h2 : decide (c₁.mHalfHeight = c₂.mHalfHeight) =
        decide (c₂.mHalfHeight = c₁.mHalfHeight) := decide_eq_decide.mpr eq_comm
    simp only [ConeShape.isEqualTo, dynamicCastConeShape, Except.map]
    rw [h1, h2]
  · intro m₁ m₂
    rfl

/-- C7: the cone inertia tensor has all six off-diagonal entries exactly `0`,
and for fixed geometry it is linear in the mass. -/
theorem C7_inertia_diagonal_mass_linear (s : ConeShape) (mass c : ℚ) :
    (s.computeLocalInertiaTensor mass).a2 = 0 ∧
    (s.computeLocalInertiaTensor mass).a3 = 0 ∧
    (s.computeLocalInertiaTensor mass).b1 = 0 ∧
    (s.computeLocalInertiaTensor mass).b3 = 0 ∧
    (s.computeLocalInertiaTensor mass).c1 = 0 ∧
    (s.computeLocalInertiaTensor mass).c2 = 0 ∧
    s.computeLocalInertiaTensor (c * mass) =
      Matrix3x3.smulMat c (s.computeLocalInertiaTensor mass) := by
  refine ⟨rfl, rfl, rfl, rfl, rfl, rfl, ?_⟩
  simp only [ConeShape.computeLocalInertiaTensor, Matrix3x3.setAllValues,
    Matrix3x3.smulMat, Matrix3x3.mk.injEq]
  refine ⟨by ring, by ring, by ring, by ring, by ring, by ring, by ring,
    by ring, by ring⟩

/-- C8: the sphere constructor's `assert(radius > 0)` rejects every
non-positive radius, and for a positive radius construction succeeds with that
radius stored (and, per the construction, also used as the margin). -/
theorem C8_sphere_constructor_assert (radius : ℚ) :
    (0 < radius → SphereShape.construct radius = some ⟨radius, radius⟩) ∧
    (¬ 0 < radius → SphereShape.construct radius = none) := by
  constructor <;> intro hr <;> simp [SphereShape.construct, hr]

/-- C8 witness: construction succeeds at radius `2` and fails at radius `0`. -/
theorem C8_sphere_constructor_assert_witness :
    (0 < (2 : ℚ)) ∧ SphereShape.construct 2 = some ⟨2, 2⟩ ∧
    (¬ 0 < (0 : ℚ)) ∧ SphereShape.construct 0 = none :=
  ⟨by decide, (C8_sphere_constructor_assert 2).1 (by decide),
   by decide, (C8_sphere_constructor_assert 0).2 (by decide)⟩

/-- C10: the sphere constructor passes its radius to the base class as the
margin (`CollisionShape(SPHERE, radius)`, SphereShape.cpp line 34), so the
stored margin equals the radius and differs from the `0.04` default whenever
the radius does; the constructor takes no other parameter, so nothing can
override this. -/
theorem C10_sphere_margin_equals_radius (radius : ℚ) (hr : 0 < radius) :
    ∃ s : SphereShape, SphereShape.construct radius = some s ∧
      s.mMargin = radius ∧ s.mRadius = radius ∧
      (radius ≠ 4 / 100 → s.mMargin ≠ 4 / 100) := by
  refine ⟨⟨radius, radius⟩, ?_, rfl, rfl, fun hne => hne⟩
  simp [SphereShape.construct, hr]

/-- C10 witness: a sphere of radius `2` carries margin `2`, not `0.04`. -/
theorem C10_sphere_margin_equals_radius_witness :
    (0 < (2 : ℚ)) ∧
    (∃ s : SphereShape, SphereShape.construct 2 = some s ∧
      s.mMargin = 2 ∧ s.mRadius = 2 ∧
      ((2 : ℚ) ≠ 4 / 100 → s.mMargin ≠ 4 / 100)) :=
  ⟨by decide, C10_sphere_margin_equals_radius 2 (by decide)⟩

/-- A vector has length `0` exactly when it is the zero vector. -/
theorem Vector3.length_eq_zero_iff (v : Vector3) :
    v.length = 0 ↔ v = ⟨0, 0, 0⟩ := by
  unfold Vector3.length
  rw [Real.sqrt_eq_zero (add_nonneg (add_nonneg (mul_self_nonneg _)
    (mul_self_nonneg _)) (mul_self_nonneg _))]
  constructor
  · intro hsum
    have hx : v.x = 0 := by
      have h1 : v.x * v.x ≤ 0 := by
        nlinarith [mul_self_nonneg v.y, mul_self_nonneg v.z]
      exact mul_self_eq_zero.mp (le_antisymm h1 (mul_self_nonneg v.x))
    have hy : v.y = 0 := by
      have h1 : v.y * v.y ≤ 0 := by
        nlinarith [mul_self_nonneg v.x, mul_self_nonneg v.z]
      exact mul_self_eq_zero.mp (le_antisymm h1 (mul_self_nonneg v.y))
    have hz : v.z = 0 := by
      have h1 : v.z * v.z ≤ 0 := by
        nlinarith [mul_self_nonneg v.x, mul_self_nonneg v.y]
      exact mul_self_eq_zero.mp (le_antisymm h1 (mul_self_nonneg v.z))
    cases v
    simp_all
  · rintro rfl
    norm_num

/-- The cached apex half-angle sine is nonnegative for a nonnegative radius. -/
theorem ConeShapeR.sinTheta_nonneg (s : ConeShapeR) (hr : 0 ≤ s.mRadius) :
    0 ≤ s.mSinTheta :=
  div_nonneg hr (Real.sqrt_nonneg _)

/-- The cached apex half-angle sine is strictly below `1` for a valid cone. -/
theorem ConeShapeR.sinTheta_lt_one (s : ConeShapeR) (hr : 0 < s.mRadius)
    (hh : 0 < s.mHalfHeight) : s.mSinTheta < 1 := by
  unfold ConeShapeR.mSinTheta
  have hpos : 0 < s.mRadius * s.mRadius +
      (2 * s.mHalfHeight) * (2 * s.mHalfHeight) := by nlinarith
  rw [div_lt_one (Real.sqrt_pos.mpr hpos)]
  calc s.mRadius = Real.sqrt (s.mRadius * s.mRadius) :=
        (Real.sqrt_mul_self hr.le).symm
    _ < Real.sqrt (s.mRadius * s.mRadius +
          (2 * s.mHalfHeight) * (2 * s.mHalfHeight)) :=
        Real.sqrt_lt_sqrt (by positivity) (by nlinarith)

/-- C1: for every non-zero direction, the with-margin support point of a cone
is the without-margin support point advanced by `margin` along the normalized
direction, and the same relation holds for a sphere, whose margin is its
radius (SphereShape.cpp line 34). -/
theorem C1_margin_support_relation (s : ConeShapeR) (radius : ℝ) (d : Vector3)
    (hd : d ≠ ⟨0, 0, 0⟩) :
    s.getLocalSupportPointWithMargin d =
      Vector3.add (s.getLocalSupportPointWithoutMargin d)
        (Vector3.scale s.getMargin d.getUnit) ∧
    sphereLocalSupportPointWithMargin radius d =
      Vector3.add (sphereLocalSupportPointWithoutMargin radius d)
        (Vector3.scale radius d.getUnit) := by
  have hlen : d.length ≠ 0 := fun hzero =>
    hd ((Vector3.length_eq_zero_iff d).mp hzero)
  constructor
  · unfold ConeShapeR.getLocalSupportPointWithMargin ConeShapeR.getMargin
    rw [if_neg hlen]
  · unfold sphereLocalSupportPointWithMargin
    rw [if_neg hlen]

/-- C1 witness: the relation instantiated at a cone of radius `2`, half height
`3`, margin `1`, a sphere of radius `2`, and the direction `(1, 0, 0)`. -/
theorem C1_margin_support_relation_witness :
    ((⟨1, 0, 0⟩ : Vector3) ≠ ⟨0, 0, 0⟩) ∧
    ((ConeShapeR.mk 2 3 1).getLocalSupportPointWithMargin ⟨1, 0, 0⟩ =
      Vector3.add
        ((ConeShapeR.mk 2 3 1).getLocalSupportPointWithoutMargin ⟨1, 0, 0⟩)
        (Vector3.scale (ConeShapeR.mk 2 3 1).getMargin
          (Vector3.getUnit ⟨1, 0, 0⟩)) ∧
    sphereLocalSupportPointWithMargin 2 ⟨1, 0, 0⟩ =
      Vector3.add (sphereLocalSupportPointWithoutMargin 2 ⟨1, 0, 0⟩)
        (Vector3.scale 2 (Vector3.getUnit ⟨1, 0, 0⟩))) :=
  ⟨by simp, C1_margin_support_relation ⟨2, 3, 1⟩ 2 ⟨1, 0, 0⟩ (by simp)⟩

/-- C4: the cone's without-margin support point follows the three-way case
split of the spec: apex `(0, halfHeight, 0)` when `dy / |d| > sinθ` (with
`|d| = 0` selecting the apex), base-rim point when the planar component
`(dx, dz)` is non-zero, base center `(0, -halfHeight, 0)` otherwise; in
particular the direction `(0, 1, 0)` yields the apex and `(1, 0, 0)` yields
`(radius, -halfHeight, 0)`. -/
theorem C4_cone_support_case_split (s : ConeShapeR) (hr : 0 < s.mRadius)
    (hh : 0 < s.mHalfHeight) (d : Vector3) :
    ((d.length = 0 ∨ s.mSinTheta < d.y / d.length) →
      s.getLocalSupportPointWithoutMargin d = ⟨0, s.mHalfHeight, 0⟩) ∧
    (d.length ≠ 0 → ¬ s.mSinTheta < d.y / d.length → (d.x ≠ 0 ∨ d.z ≠ 0) →
      s.getLocalSupportPointWithoutMargin d =
        ⟨s.mRadius * d.x / Real.sqrt (d.x * d.x + d.z * d.z), -s.mHalfHeight,
         s.mRadius * d.z / Real.sqrt (d.x * d.x + d.z * d.z)⟩) ∧
    (d.length ≠ 0 → ¬ s.mSinTheta < d.y / d.length → d.x = 0 → d.z = 0 →
      s.getLocalSupportPointWithoutMargin d = ⟨0, -s.mHalfHeight, 0⟩) ∧
    s.getLocalSupportPointWithoutMargin ⟨0, 1, 0⟩ = ⟨0, s.mHalfHeight, 0⟩ ∧
    s.getLocalSupportPointWithoutMargin ⟨1, 0, 0⟩ =
      ⟨s.mRadius, -s.mHalfHeight, 0⟩ := by
  refine ⟨?_, ?_, ?_, ?_, ?_⟩
  · rintro (hl | hgt)
    · unfold ConeShapeR.getLocalSupportPointWithoutMargin
      rw [if_pos hl]
    · by_cases hl : d.length = 0
      · unfold ConeShapeR.getLocalSupportPointWithoutMargin
        rw [if_pos hl]
      · unfold ConeShapeR.getLocalSupportPointWithoutMargin
        rw [if_neg hl, if_pos hgt]
  · intro hl hng hplanar
    have hpp : 0 < d.x * d.x + d.z * d.z := by
      rcases hplanar with hx | hz
      · nlinarith [mul_self_nonneg d.z, mul_self_nonneg d.x,
          mul_self_pos.mpr hx]
      · nlinarith [mul_self_nonneg d.x, mul_self_nonneg d.z,
          mul_self_pos.mpr hz]
    have hsq : Real.sqrt (d.x * d.x + d.z * d.z) ≠ 0 :=
      ne_of_gt (Real.sqrt_pos.mpr hpp)
    unfold ConeShapeR.getLocalSupportPointWithoutMargin
    simp only [if_neg hl, if_neg hng]
    rw [if_pos hsq]
  · intro hl hng hx hz
    have hzero : Real.sqrt (d.x * d.x + d.z * d.z) = 0 := by
      rw [hx, hz]
      norm_num
    unfold ConeShapeR.getLocalSupportPointWithoutMargin
    simp only [if_neg hl, if_neg hng]
    rw [if_neg (not_not_intro hzero)]
  · have hlen : (Vector3.mk 0 1 0).length = 1 := by
      unfold Vector3.length
      norm_num
    have hl : (Vector3.mk 0 1 0).length ≠ 0 := by
      rw [hlen]
      exact one_ne_zero
    have hgt : s.mSinTheta <
        (Vector3.mk 0 1 0).y / (Vector3.mk 0 1 0).length := by
      rw [hlen]
      norm_num
      exact s.sinTheta_lt_one hr hh
    unfold ConeShapeR.getLocalSupportPointWithoutMargin
    rw [if_neg hl, if_pos hgt]
  · have hlen : (Vector3.mk 1 0 0).length = 1 := by
      unfold Vector3.length
      norm_num
    have hl : (Vector3.mk 1 0 0).length ≠ 0 := by
      rw [hlen]
      exact one_ne_zero
    have hng : ¬ s.mSinTheta <
        (Vector3.mk 1 0 0).y / (Vector3.mk 1 0 0).length := by
      rw [hlen]
      norm_num
      exact s.sinTheta_nonneg hr.le
    have hsq : Real.sqrt ((Vector3.mk 1 0 0).x * (Vector3.mk 1 0 0).x +
        (Vector3.mk 1 0 0).z * (Vector3.mk 1 0 0).z) ≠ 0 := by
      norm_num
    unfold ConeShapeR.getLocalSupportPointWithoutMargin
    simp only [if_neg hl, if_neg hng]
    rw [if_pos hsq]
    simp

/-- C4 witness: the case split instantiated at a cone of radius `1`, half
height `1`, margin `1` and the direction `(0, 0, 1)`. -/
theorem C4_cone_support_case_split_witness :
    (0 < (ConeShapeR.mk 1 1 1).mRadius) ∧
    (0 < (ConeShapeR.mk 1 1 1).mHalfHeight) ∧
    ((((⟨0, 0, 1⟩ : Vector3).length = 0 ∨
        (ConeShapeR.mk 1 1 1).mSinTheta <
          (⟨0, 0, 1⟩ : Vector3).y / (⟨0, 0, 1⟩ : Vector3).length) →
      (ConeShapeR.mk 1 1 1).getLocalSupportPointWithoutMargin ⟨0, 0, 1⟩ =
        ⟨0, (ConeShapeR.mk 1 1 1).mHalfHeight, 0⟩) ∧
    ((⟨0, 0, 1⟩ : Vector3).length ≠ 0 →
      ¬ (ConeShapeR.mk 1 1 1).mSinTheta <
          (⟨0, 0, 1⟩ : Vector3).y / (⟨0, 0, 1⟩ : Vector3).length →
      ((⟨0, 0, 1⟩ : Vector3).x ≠ 0 ∨ (⟨0, 0, 1⟩ : Vector3).z ≠ 0) →
      (ConeShapeR.mk 1 1 1).getLocalSupportPointWithoutMargin ⟨0, 0, 1⟩ =
        ⟨(ConeShapeR.mk 1 1 1).mRadius * (⟨0, 0, 1⟩ : Vector3).x /
            Real.sqrt ((⟨0, 0, 1⟩ : Vector3).x * (⟨0, 0, 1⟩ : Vector3).x +
              (⟨0, 0, 1⟩ : Vector3).z * (⟨0, 0, 1⟩ : Vector3).z),
         -(ConeShapeR.mk 1 1 1).mHalfHeight,
         (ConeShapeR.mk 1 1 1).mRadius * (⟨0, 0, 1⟩ : Vector3).z /
            Real.sqrt ((⟨0, 0, 1⟩ : Vector3).x * (⟨0, 0, 1⟩ : Vector3).x +
              (⟨0, 0, 1⟩ : Vector3).z * (⟨0, 0, 1⟩ : Vector3).z)⟩) ∧
    ((⟨0, 0, 1⟩ : Vector3).length ≠ 0 →
      ¬ (ConeShapeR.mk 1 1 1).mSinTheta <
          (⟨0, 0, 1⟩ : Vector3).y / (⟨0, 0, 1⟩ : Vector3).length →
      (⟨0, 0, 1⟩ : Vector3).x = 0 → (⟨0, 0, 1⟩ : Vector3).z = 0 →
      (ConeShapeR.mk 1 1 1).getLocalSupportPointWithoutMargin ⟨0, 0, 1⟩ =
        ⟨0, -(ConeShapeR.mk 1 1 1).mHalfHeight, 0⟩) ∧
    (ConeShapeR.mk 1 1 1).getLocalSupportPointWithoutMargin ⟨0, 1, 0⟩ =
      ⟨0, (ConeShapeR.mk 1 1 1).mHalfHeight, 0⟩ ∧
    (ConeShapeR.mk 1 1 1).getLocalSupportPointWithoutMargin ⟨1, 0, 0⟩ =
      ⟨(ConeShapeR.mk 1 1 1).mRadius, -(ConeShapeR.mk 1 1 1).mHalfHeight, 0⟩) :=
  ⟨one_pos, one_pos,
   C4_cone_support_case_split ⟨1, 1, 1⟩ one_pos one_pos ⟨0, 0, 1⟩⟩

/-- C9: the proxy cone shape delegates both support-point queries and the
margin query verbatim to the wrapped shape, and the stored transform and mass
have no effect on these results. -/
theorem C9_proxy_pure_delegation (p : ProxyConeShape) (d : Vector3) :
    p.getLocalSupportPointWithMargin d =
      p.mCollisionShape.getLocalSupportPointWithMargin d ∧
    p.getLocalSupportPointWithoutMargin d =
      p.mCollisionShape.getLocalSupportPointWithoutMargin d ∧
    p.getMargin = p.mCollisionShape.getMargin ∧
    (∀ (t₁ t₂ : Transform) (m₁ m₂ : ℝ),
      (ProxyConeShape.mk p.mCollisionShape t₁ m₁).getLocalSupportPointWithMargin
          d =
        (ProxyConeShape.mk p.mCollisionShape t₂
            m₂).getLocalSupportPointWithMargin d ∧
      (ProxyConeShape.mk p.mCollisionShape t₁
            m₁).getLocalSupportPointWithoutMargin d =
        (ProxyConeShape.mk p.mCollisionShape t₂
            m₂).getLocalSupportPointWithoutMargin d ∧
      (ProxyConeShape.mk p.mCollisionShape t₁ m₁).getMargin =
        (ProxyConeShape.mk p.mCollisionShape t₂ m₂).getMargin) :=
  ⟨rfl, rfl, rfl, fun _ _ _ _ => ⟨rfl, rfl, rfl⟩⟩

end RP3D
